import Mathlib

/-!
Verification development for the Skippy push-to-talk voice assistant
(src/skippy).  The Python source is shallowly embedded: pure logic becomes
Lean functions, Python exceptions become an explicit `PyError` sum carried
in `Except`, stateful orchestration (`SkippyApp.ptt_start`, `ptt_stop`,
`_process_turn`) becomes functions from an explicit state plus an
environment of collaborator results to a new state and a trace of
observable effects.  Python `float` values are modelled as `Rat`.
-/

/-- The kinds of Python exception the embedded code can raise.
`runtimeError` carries the message built by the source with an f-string;
the other constructors model built-in exceptions raised by subscripting,
attribute access, keyword binding and int conversion. -/
inductive PyError where
  | runtimeError (msg : String)
  | keyError (key : String)
  | indexError (msg : String)
  | typeError (msg : String)
  | attributeError (msg : String)
  | valueError (msg : String)
deriving DecidableEq, Repr

/-- Rendering of an exception as Python `str(e)` does when the app formats
`f"Error: {e}"`; quoting of KeyError keys is dropped. -/
def pyErrMsg : PyError → String
  | .runtimeError m => m
  | .keyError k => k
  | .indexError m => m
  | .typeError m => m
  | .attributeError m => m
  | .valueError m => m

/-- Characters treated as whitespace by Python `str.strip()` (ASCII part). -/
def pyWhitespace (c : Char) : Bool :=
  c = ' ' || c = '\t' || c = '\n' || c = '\r' || c = '\x0b' || c = '\x0c'

/-- Python `str.strip()`: drop leading and trailing whitespace. -/
def pyStrip (s : String) : String :=
  ⟨((s.toList.dropWhile pyWhitespace).reverse.dropWhile pyWhitespace).reverse⟩

/-- Python `str.lower()` (ASCII case folding, all the app compares). -/
def pyLower (s : String) : String :=
  ⟨s.toList.map Char.toLower⟩

/-- One chat message, `{"role": ..., "content": ...}` in the source. -/
structure Message where
  role : String
  content : String
deriving DecidableEq, Repr

/-! ## Streaming accumulation (agent_graph.py, `call_llm`, stream branch)

The stream branch of `call_llm` iterates the delta sequence; before
appending each chunk it consults `cancel_check`, and after appending it
forwards the running total through `stream_callback`.  `cancel` gives the
value returned by the i-th cancellation check.  The result is the final
accumulator together with the list of texts forwarded to the callback. -/

/-- agent_graph.py lines 34-45: the streaming loop of `call_llm`.
Returns (final accumulated text, texts forwarded to `stream_callback`
in order). -/
def callLlmStream (cancel : Nat → Bool) : List String → String → String × List String
  | [], acc => (acc, [])
  | d :: ds, acc =>
    if cancel 0 then (acc, [])
    else
      let acc2 := acc ++ d
      let r := callLlmStream (fun i => cancel (i + 1)) ds acc2
      (r.1, acc2 :: r.2)

/-- Number of deltas consumed before the first cancellation check that
returns true (all `n` deltas when no check in range returns true). -/
def truncLen (cancel : Nat → Bool) : Nat → Nat
  | 0 => 0
  | n + 1 => if cancel 0 then 0 else truncLen (fun i => cancel (i + 1)) n + 1

/-- Concatenation of a list of strings in order. -/
def concatList : List String → String
  | [] => ""
  | d :: ds => d ++ concatList ds

/-! ## Python values and the LocalAI client (localai_client.py)

JSON payloads decoded by `r.json()` become Python dicts, lists, strings,
numbers and booleans; `PyVal` models those values.  Subscripting a dict
with a missing key raises `KeyError`, indexing a list out of range raises
`IndexError`, and calling `.strip()` on a non-string raises
`AttributeError`, exactly as in Python. -/

/-- A Python value as produced by `r.json()` or `tomllib.loads`. -/
inductive PyVal where
  | str (s : String)
  | int (n : Int)
  | float (q : Rat)
  | bool (b : Bool)
  | noneV
  | list (xs : List PyVal)
  | dict (kvs : List (String × PyVal))

/-- Python `v[k]` for a string key. -/
def pySubscript (v : PyVal) (k : String) : Except PyError PyVal :=
  match v with
  | .dict kvs =>
    match kvs.lookup k with
    | some x => .ok x
    | none => .error (.keyError k)
  | _ => .error (.typeError "object is not subscriptable")

/-- Python `v[i]` for an integer index. -/
def pyIndex (v : PyVal) (i : Nat) : Except PyError PyVal :=
  match v with
  | .list xs =>
    match xs.get? i with
    | some x => .ok x
    | none => .error (.indexError "list index out of range")
  | .dict _ => .error (.keyError (toString i))
  | _ => .error (.typeError "object is not subscriptable")

/-- Python `v.strip()`: only strings have the method. -/
def pyStripMethod (v : PyVal) : Except PyError String :=
  match v with
  | .str s => .ok (pyStrip s)
  | _ => .error (.attributeError "object has no attribute strip")

/-- localai_client.py lines 57-58: extraction of the reply text from the
decoded chat payload, `out["choices"][0]["message"]["content"].strip()`. -/
def chatParse (out : PyVal) : Except PyError String := do
  let c ← pySubscript out "choices"
  let c0 ← pyIndex c 0
  let m ← pySubscript c0 "message"
  let t ← pySubscript m "content"
  pyStripMethod t

/-- localai_client.py lines 50-58, `LocalAIClient.chat`.  The transport is
modelled by its outcome: a decoded JSON payload, or the message of the
`requests.exceptions.RequestException` that the call raised; the latter is
re-raised as `RuntimeError(f"LLM chat failed: {e}")`. -/
def chat (transport : Except String PyVal) : Except PyError String :=
  match transport with
  | .error cause => .error (.runtimeError ("LLM chat failed: " ++ cause))
  | .ok out => chatParse out

/-- The uniform classified error kind of the client: a `RuntimeError`
whose message names the failed operation.  The error kinds of the design
(`BackendUnavailable`, `MalformedResponse`) are surfaced this way; a bare
`KeyError` or `IndexError` escaping from payload subscripting is not of
this kind. -/
def isUniformClientError : PyError → Bool
  | .runtimeError _ => true
  | _ => false

/-- The payload `{"choices":[{"message":{"content":"Hello!"}}]}`. -/
def helloPayload : PyVal :=
  .dict [("choices", .list [.dict [("message", .dict [("content", .str "Hello!")])]])]

/-! ## Persona updates (app.py, `_persona_path_changed` / `_persona_text_changed`)

Both flows update the stored system message under the lock.  The path flow
(app.py lines 484-488) replaces the content of the head message when it is
a system message and otherwise inserts a new system message at index 0;
the live-edit flow (app.py lines 497-499) only replaces, it has no insert
branch. -/

/-- app.py lines 484-488: the message-sequence update performed by
`_persona_path_changed` (load persona from file). -/
def personaPathUpdate (text : String) : List Message → List Message
  | [] => [⟨"system", text⟩]
  | m :: rest =>
    if m.role = "system" then { m with content := text } :: rest
    else ⟨"system", text⟩ :: m :: rest

/-- app.py lines 497-499: the message-sequence update performed by
`_persona_text_changed` (live-edit persona text). -/
def personaTextUpdate (text : String) : List Message → List Message
  | [] => []
  | m :: rest =>
    if m.role = "system" then { m with content := text } :: rest
    else m :: rest

/-! ## The turn pipeline (app.py, `_process_turn`)

`_process_turn` runs on a worker thread.  Its interactions with the
outside world are recorded as a trace of `Effect`s: UI-queue enqueues
(status text, chat log entries, busy indicator, stream entries), session
appends, and the collaborator calls it makes (chat/agent, TTS, playback).
Collaborator outcomes are supplied by a `TurnEnv`: the value returned or
the exception raised by each call, and the value of `cancel_flag` read at
each of the two cancellation checkpoints.  The `try/except/finally` of the
source is reflected by every branch ending with the busy flag cleared and
`_set_busy(False)` enqueued. -/

/-- One observable action of the worker. -/
inductive Effect where
  | status (text : String)
  | addLog (who text : String)
  | appendMsg (role content : String)
  | enqueueBusy (b : Bool)
  | enqueueNewStream
  | enqueueFinalizeStream (text : String)
  | chatCall (model : String)
  | ttsCall (variant model text : String)
  | playCall (bytes : List Nat) (device : Option Nat) (volume : Rat)
  | enqueuePtt (active : Bool)
  | recorderStartEff
  | recorderStopEff
  | spawnTurn (bytes : List Nat)
deriving DecidableEq, Repr

def Effect.isTtsCall : Effect → Bool
  | .ttsCall _ _ _ => true
  | _ => false

def Effect.isPlayCall : Effect → Bool
  | .playCall _ _ _ => true
  | _ => false

def Effect.isChatCall : Effect → Bool
  | .chatCall _ => true
  | _ => false

def Effect.isAssistantAppend : Effect → Bool
  | .appendMsg r _ => r == "assistant"
  | _ => false

/-- The per-turn snapshot read under the lock at the start of
`_process_turn` (app.py lines 153-163), together with the two session
fields read there.  config.py defines `AudioConfig` without a `volume`
field, so the read `self.cfg.audio.volume` finds an attribute only when a
UI callback (`_set_volume`) has injected one dynamically: `volumeAttr`
is that optional attribute. -/
structure TurnCfg where
  sttModel : String
  llmModel : String
  ttsModel : String
  ttsEndpoint : String
  ttsExtraParams : List (String × PyVal)
  ttsResponseFormat : String
  outDevice : Option Nat
  volumeAttr : Option Rat
  stream : Bool
  temperature : Rat

/-- Outcomes of the collaborator calls a turn may make, and the values of
`cancel_flag` observed at the two checkpoints (app.py lines 199-201 and
229-231).  A field is only consulted when the corresponding call or check
is reached. -/
structure TurnEnv where
  transcribeResult : Except PyError String
  agentResult : Except PyError String
  cancelAfterChat : Bool
  ttsResult : Except PyError (List Nat)
  cancelAfterTts : Bool
  playResult : Except PyError Unit

/-- audio.py line 131: the parameter list of
`def play_audio(data, device=None)`. -/
def playAudioParams : List String := ["data", "device"]

/-- Python keyword-argument binding: the call succeeds only when every
keyword names a declared parameter; otherwise it raises
`TypeError: ... got an unexpected keyword argument ...`. -/
def pyKwargsBind (params kwargs : List String) : Bool :=
  kwargs.all (fun k => params.contains k)

/-- app.py line 233 passes `device` and `volume` as keywords to
`play_audio`. -/
def playCallKwargs : List String := ["device", "volume"]

/-- The `AttributeError` raised by `self.cfg.audio.volume` when the
attribute is absent. -/
def volumeAttrError : PyError :=
  .attributeError "AudioConfig object has no attribute volume"

/-- The `TypeError` raised by binding the keyword `volume` against
`play_audio(data, device=None)`. -/
def playKwargError : PyError :=
  .typeError "play_audio() got an unexpected keyword argument volume"

/-- app.py lines 151-240, `SkippyApp._process_turn`, as a function of the
snapshot, the session messages at turn start and the collaborator
environment.  Result: (final session messages, final busy flag) and the
effect trace.  The internal streaming of `agent.run` is modelled
separately by `callLlmStream`; here the agent call is represented by its
returned text or raised exception (`env.agentResult`). -/
def processTurn (cfg : TurnCfg) (msgs0 : List Message) (env : TurnEnv) :
    (List Message × Bool) × List Effect :=
  match cfg.volumeAttr with
  | none =>
    ((msgs0, false),
      [.status ("Error: " ++ pyErrMsg volumeAttrError), .enqueueBusy false])
  | some volume =>
    match env.transcribeResult with
    | .error e =>
      ((msgs0, false), [.status ("Error: " ++ pyErrMsg e), .enqueueBusy false])
    | .ok raw =>
      let userText := pyStrip raw
      if userText = "" then
        ((msgs0, false), [.status "Transcription was empty", .enqueueBusy false])
      else
        let msgs1 := msgs0 ++ [⟨"user", userText⟩]
        let pre : List Effect :=
          [.addLog "You" userText, .appendMsg "user" userText, .status "Thinking…"]
            ++ (if cfg.stream then [.enqueueNewStream] else [])
            ++ [.chatCall cfg.llmModel]
        match env.agentResult with
        | .error e =>
          ((msgs1, false), pre ++ [.status ("Error: " ++ pyErrMsg e), .enqueueBusy false])
        | .ok resp =>
          if env.cancelAfterChat then
            ((msgs1, false), pre ++ [.enqueueBusy false])
          else
            let aText := pyStrip resp
            let emit : List Effect :=
              if cfg.stream then
                if aText = "" then [] else [.enqueueFinalizeStream aText]
              else
                if aText = "" then [] else [.addLog "Skippy" aText]
            if aText = "" then
              ((msgs1, false),
                pre ++ emit ++ [.status "No assistant response", .enqueueBusy false])
            else
              let msgs2 := msgs1 ++ [⟨"assistant", aText⟩]
              let pre2 := pre ++ emit
                ++ [.appendMsg "assistant" aText, .status "Speaking…",
                    .ttsCall (if pyLower cfg.ttsEndpoint = "openai" then "openai" else "tts")
                      cfg.ttsModel aText]
              match env.ttsResult with
              | .error e =>
                ((msgs2, false), pre2 ++ [.status ("Error: " ++ pyErrMsg e), .enqueueBusy false])
              | .ok bytes =>
                if env.cancelAfterTts then
                  ((msgs2, false), pre2 ++ [.enqueueBusy false])
                else
                  if pyKwargsBind playAudioParams playCallKwargs then
                    match env.playResult with
                    | .error e =>
                      ((msgs2, false),
                        pre2 ++ [.playCall bytes cfg.outDevice volume,
                                 .status ("Error: " ++ pyErrMsg e), .enqueueBusy false])
                    | .ok _ =>
                      ((msgs2, false),
                        pre2 ++ [.playCall bytes cfg.outDevice volume,
                                 .status "Ready", .enqueueBusy false])
                  else
                    ((msgs2, false),
                      pre2 ++ [.status ("Error: " ++ pyErrMsg playKwargError),
                               .enqueueBusy false])

/-! ## Audio capture and push-to-talk entry points (audio.py, app.py)

`Recorder` buffers frame chunks while `_running`; `stop()` returns empty
bytes when not recording and otherwise encodes the concatenated frames as
a 16-bit PCM WAV container.  The encoding itself is done by the external
`soundfile` library; `wavEncode` models `sf.write(buf, audio, sample_rate,
format="WAV", subtype="PCM_16")`: the canonical 44-byte RIFF/WAVE/fmt/data
header followed by the little-endian 16-bit samples, emitted even for zero
frames. -/

/-- Two little-endian bytes of a 16-bit value. -/
def u16le (n : Nat) : List Nat := [n % 256, n / 256 % 256]

/-- Four little-endian bytes of a 32-bit value. -/
def u32le (n : Nat) : List Nat :=
  [n % 256, n / 256 % 256, n / 65536 % 256, n / 16777216 % 256]

/-- A 16-bit PCM sample (two little-endian bytes, two's complement). -/
def i16bytes (i : Int) : List Nat := u16le (i % 65536).toNat

/-- The 44-byte canonical WAV header written by the external encoder for
PCM_16 data: RIFF chunk, fmt chunk (PCM, 16 bits) and the data chunk
header. -/
def wavHeader (sampleRate channels dataLen : Nat) : List Nat :=
  [82, 73, 70, 70] ++ u32le (36 + dataLen) ++ [87, 65, 86, 69]
    ++ [102, 109, 116, 32] ++ u32le 16 ++ u16le 1 ++ u16le channels
    ++ u32le sampleRate ++ u32le (sampleRate * channels * 2)
    ++ u16le (channels * 2) ++ u16le 16
    ++ [100, 97, 116, 97] ++ u32le dataLen

/-- Models the external soundfile WAV PCM_16 encoder: header then samples. -/
def wavEncode (sampleRate channels : Nat) (samples : List Int) : List Nat :=
  wavHeader sampleRate channels (2 * samples.length) ++ (samples.map i16bytes).flatten

/-- The mutable fields of `Recorder` (audio.py lines 27-37) that its logic
reads: whether it is recording and the buffered frame chunks (each chunk a
list of 16-bit samples), plus the configured rate and channel count. -/
structure RecState where
  sampleRate : Nat
  channels : Nat
  running : Bool
  frames : List (List Int)
deriving DecidableEq, Repr

/-- audio.py lines 39-44: `Recorder.start` is a no-op while recording;
otherwise it clears the frame buffer and begins recording. -/
def recorderStart (r : RecState) : RecState :=
  if r.running then r
  else { r with running := true, frames := [] }

/-- audio.py lines 65-85: `Recorder.stop` returns empty bytes when not
recording; otherwise it halts the stream, concatenates the buffered
chunks in arrival order (an empty sample array when no chunk arrived) and
encodes them as a 16 kHz-style PCM_16 WAV container. -/
def recorderStop (r : RecState) : RecState × List Nat :=
  if r.running then
    ({ r with running := false },
      wavEncode r.sampleRate r.channels r.frames.flatten)
  else (r, [])

/-- The application state touched by the push-to-talk handlers: the
session messages, the busy and cancel flags and the recorder. -/
structure AppState where
  messages : List Message
  busy : Bool
  cancelFlag : Bool
  recorder : RecState
deriving DecidableEq, Repr

/-- app.py lines 119-125, `SkippyApp.ptt_start`: rejected as a no-op when
busy, otherwise starts the recorder and reports recording. -/
def pttStart (st : AppState) : AppState × List Effect :=
  if st.busy then (st, [])
  else
    ({ st with recorder := recorderStart st.recorder },
      [.recorderStartEff, .enqueuePtt true, .status "Recording… release to send"])

/-- app.py lines 127-143, `SkippyApp.ptt_stop`: rejected as a no-op when
busy; otherwise stops the recorder, ends the turn with status
"No audio captured" when the returned bytes are empty, and otherwise
marks the pipeline busy and spawns the turn worker with the bytes. -/
def pttStop (st : AppState) : AppState × List Effect :=
  if st.busy then (st, [])
  else
    let p := recorderStop st.recorder
    if p.2 = [] then
      ({ st with recorder := p.1 },
        [.enqueuePtt false, .recorderStopEff, .status "No audio captured"])
    else
      ({ st with recorder := p.1, busy := true, cancelFlag := false },
        [.enqueuePtt false, .recorderStopEff, .enqueueBusy true,
         .status "Transcribing…", .spawnTurn p.2])

/-! ## Configuration loading (config.py, `load_config`)

`tomllib.loads` yields nested Python dicts, modelled as `PyVal`; a missing
file or a parse failure is caught and replaced by an empty dict.  `_get`
walks nested keys and falls back to the dataclass default.  Fields the
source assigns raw keep type `PyVal`; fields it passes through `str()`,
`int()` or `bool()` are coerced, and `int()` can raise, so the loader
returns `Except`.  The path bookkeeping (`root_dir`, `config_path`) is
environment state outside the data model. -/

/-- config.py lines 68-74, `_get`: walk nested dict keys, `none` when a
level is not a dict or the key is absent (the caller then uses the
default). -/
def cfgGet : PyVal → List String → Option PyVal
  | cur, [] => some cur
  | .dict kvs, k :: ks =>
    match kvs.lookup k with
    | some v => cfgGet v ks
    | none => none
  | _, _ :: _ => none

/-- Python `int(s)` on a string: strip, optional sign, decimal digits. -/
def pyIntOfString (s : String) : Except PyError Int :=
  let t := pyStrip s
  let p : Int × List Char :=
    match t.toList with
    | '-' :: rest => (-1, rest)
    | '+' :: rest => (1, rest)
    | l => (1, l)
  if !p.2.isEmpty && p.2.all Char.isDigit then
    .ok (p.1 * ((p.2.foldl (fun acc c => acc * 10 + (c.toNat - 48)) 0 : Nat) : Int))
  else .error (.valueError "invalid literal for int()")

/-- Python `int(v)`: identity on ints, truncation on floats, 0/1 on bools,
decimal parse on strings, `TypeError` otherwise. -/
def pyInt : PyVal → Except PyError Int
  | .int n => .ok n
  | .bool b => .ok (if b then 1 else 0)
  | .float q => .ok (q.num.tdiv (q.den : Int))
  | .str s => pyIntOfString s
  | _ => .error (.typeError "int() argument is not a number or string")

/-- Python `str(v)`.  Only the string case is exercised by the claims; the
renderings of the other cases model the shape of the CPython output. -/
def pyStrOf : PyVal → String
  | .str s => s
  | .int n => toString n
  | .float q => toString q
  | .bool b => if b then "True" else "False"
  | .noneV => "None"
  | .list _ => "[...]"
  | .dict _ => "dict"

/-- Python truthiness `bool(v)`. -/
def pyBoolOf : PyVal → Bool
  | .str s => s != ""
  | .int n => n != 0
  | .float q => q != 0
  | .bool b => b
  | .noneV => false
  | .list xs => !xs.isEmpty
  | .dict kvs => !kvs.isEmpty

/-- config.py lines 13-16, `LocalAIConfig`; `base_url` is assigned raw. -/
structure CfgLocalAI where
  base_url : PyVal
  timeout_s : Int

/-- config.py lines 19-24, `ModelsConfig`; all four are assigned raw. -/
structure CfgModels where
  llm : PyVal
  stt : PyVal
  tts : PyVal
  tts_endpoint : PyVal

/-- config.py lines 27-30, `TTSConfig`. -/
structure CfgTTS where
  extra_params : List (String × PyVal)
  response_format : PyVal

/-- config.py lines 33-40, `AudioConfig`.  Note: there is no `volume`
field; app.py reads `cfg.audio.volume` nevertheless. -/
structure CfgAudio where
  sample_rate : Int
  channels : Int
  device_in : String
  device_out : String
  ptt_key : String
  max_record_seconds : Int

/-- config.py lines 43-47, `UIConfig`. -/
structure CfgUI where
  theme : String
  font_size : Int
  show_debug : Bool

/-- config.py lines 50-52, `PersonaConfig`. -/
structure CfgPersona where
  persona_file : String

/-- config.py lines 55-62, the section part of `AppConfig`. -/
structure CfgApp where
  localai : CfgLocalAI
  models : CfgModels
  tts : CfgTTS
  audio : CfgAudio
  ui : CfgUI
  persona : CfgPersona

/-- The dataclass defaults of config.py (`AppConfig()`). -/
def defaultCfgApp : CfgApp where
  localai := { base_url := .str "http://localhost:8080", timeout_s := 180 }
  models := { llm := .str "gpt-4", stt := .str "whisper-1",
              tts := .str "vibevoice", tts_endpoint := .str "tts" }
  tts := { extra_params := [], response_format := .str "wav" }
  audio := { sample_rate := 16000, channels := 1, device_in := "",
             device_out := "", ptt_key := "SHIFT_R", max_record_seconds := 30 }
  ui := { theme := "dark", font_size := 17, show_debug := false }
  persona := { persona_file := "config/personas/engineer.md" }

/-- config.py lines 77-117, `load_config`.  The input is the outcome of
reading and parsing the file: `none` models both a missing file and a
TOML parse failure, which the source catches and replaces by an empty
dict before filling in the fields. -/
def loadConfig (parsed : Option PyVal) : Except PyError CfgApp := do
  let data := parsed.getD (.dict [])
  let get := fun (ks : List String) (dflt : PyVal) => (cfgGet data ks).getD dflt
  let base_url := get ["localai", "base_url"] (.str "http://localhost:8080")
  let timeout_s ← pyInt (get ["localai", "timeout_s"] (.int 180))
  let llm := get ["models", "llm"] (.str "gpt-4")
  let stt := get ["models", "stt"] (.str "whisper-1")
  let tts := get ["models", "tts"] (.str "vibevoice")
  let tts_endpoint := get ["models", "tts_endpoint"] (.str "tts")
  let rawExtra := get ["tts", "extra_params"] (.dict [])
  let orExtra := if pyBoolOf rawExtra then rawExtra else .dict []
  let extra_params ← match orExtra with
    | .dict kvs => pure kvs
    | _ => Except.error (.typeError "cannot convert value to dict")
  let response_format := get ["tts", "response_format"] (.str "wav")
  let sample_rate ← pyInt (get ["audio", "sample_rate"] (.int 16000))
  let channels ← pyInt (get ["audio", "channels"] (.int 1))
  let device_in := pyStrOf (get ["audio", "device_in"] (.str ""))
  let device_out := pyStrOf (get ["audio", "device_out"] (.str ""))
  let ptt_key := pyStrOf (get ["audio", "ptt_key"] (.str "SHIFT_R"))
  let max_record_seconds ← pyInt (get ["audio", "max_record_seconds"] (.int 30))
  let theme := pyStrOf (get ["ui", "theme"] (.str "dark"))
  let font_size ← pyInt (get ["ui", "font_size"] (.int 17))
  let show_debug := pyBoolOf (get ["ui", "show_debug"] (.bool false))
  let persona_file := pyStrOf (get ["persona", "persona_file"]
    (.str "config/personas/engineer.md"))
  pure
    { localai := { base_url, timeout_s }
      models := { llm, stt, tts, tts_endpoint }
      tts := { extra_params, response_format }
      audio := { sample_rate, channels, device_in, device_out, ptt_key,
                 max_record_seconds }
      ui := { theme, font_size, show_debug }
      persona := { persona_file } }

/-- A parsed TOML document that sets only `[localai] base_url`. -/
def onlyBaseUrlToml (u : String) : PyVal :=
  .dict [("localai", .dict [("base_url", .str u)])]

/-! ## Concrete fixtures used by witnesses and counterexamples -/

/-- A turn snapshot: defaults from config/default settings, volume
attribute injected (value 1), streaming off. -/
def sampleCfg : TurnCfg :=
  { sttModel := "whisper-1", llmModel := "gpt-4", ttsModel := "vibevoice",
    ttsEndpoint := "tts", ttsExtraParams := [], ttsResponseFormat := "wav",
    outDevice := none, volumeAttr := some 1, stream := false,
    temperature := 7 / 10 }

/-- A fully successful, never-cancelled collaborator environment. -/
def sampleEnv : TurnEnv :=
  { transcribeResult := .ok "hi", agentResult := .ok "Hello!",
    cancelAfterChat := false, ttsResult := .ok [1, 2, 3],
    cancelAfterTts := false, playResult := .ok () }

/-- The successful environment with cancellation observed at both
checkpoints. -/
def cancelEnv : TurnEnv :=
  { sampleEnv with cancelAfterChat := true, cancelAfterTts := true }

/-- The successful environment with a whitespace-only transcription. -/
def blankEnv : TurnEnv :=
  { sampleEnv with transcribeResult := .ok "  " }

/-- An application state whose pipeline is busy. -/
def busyState : AppState :=
  { messages := [⟨"system", "persona"⟩], busy := true, cancelFlag := false,
    recorder := { sampleRate := 16000, channels := 1, running := false,
                  frames := [] } }

/-- An idle application state whose recorder is recording and has captured
zero frames. -/
def recordingState : AppState :=
  { messages := [⟨"system", "persona"⟩], busy := false, cancelFlag := false,
    recorder := { sampleRate := 16000, channels := 1, running := true,
                  frames := [] } }

/-! ## Helper lemmas -/

/-- The streaming loop of `call_llm`, generalised over the initial
accumulator: the final text is the accumulator followed by the deltas
consumed before the first positive cancellation check, and the forwarded
texts are the successive partial concatenations. -/
theorem callLlmStream_spec (ds : List String) :
    ∀ (cancel : Nat → Bool) (acc : String),
      (callLlmStream cancel ds acc).1
          = acc ++ concatList (ds.take (truncLen cancel ds.length))
        ∧ (callLlmStream cancel ds acc).2
          = (List.range (truncLen cancel ds.length)).map
              (fun i => acc ++ concatList (ds.take (i + 1))) := by
  induction ds with
  | nil =>
    intro cancel acc
    simp [callLlmStream, truncLen, concatList]
  | cons d ds ih =>
    intro cancel acc
    by_cases hc : cancel 0
    · simp [callLlmStream, truncLen, hc, concatList]
    · have ihd := ih (fun i => cancel (i + 1)) (acc ++ d)
      simp only [callLlmStream, truncLen, hc, if_false, List.length_cons,
        Bool.false_eq_true, ite_false]
      constructor
      · rw [ihd.1, List.take_succ_cons]
        simp [concatList, String.append_assoc]
      · rw [ihd.2, List.range_succ_eq_map, List.map_cons, List.map_map]
        simp [concatList, String.append_assoc, Function.comp, List.take_succ_cons]

/-- `truncLen cancel n` is the index of the first cancellation check that
returns true (or `n` when no check among the first `n` does): it is at
most `n`, every check before it returns false, and the check at it, when
it is below `n`, returns true. -/
theorem truncLen_first (n : Nat) :
    ∀ cancel : Nat → Bool,
      truncLen cancel n ≤ n
        ∧ ((List.range (truncLen cancel n)).all (fun i => !cancel i)) = true
        ∧ (truncLen cancel n = n ∨ cancel (truncLen cancel n) = true) := by
  induction n with
  | zero => intro cancel; simp [truncLen]
  | succ n ih =>
    intro cancel
    by_cases hc : cancel 0
    · simp [truncLen, hc]
    · have ihs := ih (fun i => cancel (i + 1))
      simp only [truncLen, hc, Bool.false_eq_true, ite_false]
      refine ⟨by omega, ?_, ?_⟩
      · rw [List.range_succ_eq_map, List.all_cons, List.all_map]
        simp only [Bool.and_eq_true]
        exact ⟨by simp [hc], ihs.2.1⟩
      · rcases ihs.2.2 with h | h
        · exact Or.inl (by omega)
        · exact Or.inr h

/-- The modelled WAV header is 44 bytes long. -/
theorem wavHeader_length (a b c : Nat) : (wavHeader a b c).length = 44 := by
  simp [wavHeader, u32le, u16le]

/-- Encoded WAV bytes are at least as long as the 44-byte header. -/
theorem wavEncode_length (sr ch : Nat) (samples : List Int) :
    44 ≤ (wavEncode sr ch samples).length := by
  simp [wavEncode, wavHeader_length]

/-- Encoded WAV bytes are never empty, even for zero samples. -/
theorem wavEncode_ne_nil (sr ch : Nat) (samples : List Int) :
    wavEncode sr ch samples ≠ [] := by
  intro h
  have hl := congrArg List.length h
  simp [wavEncode, wavHeader_length] at hl

/-! ## Claim theorems -/

/-- C1: for every finite sequence of chat-stream deltas and every
cancellation-flag history, the accumulated text forwarded to the
presentation boundary after each delta is the concatenation of the deltas
in arrival order truncated at the first delta index at which the
cancellation check returned true; that delta and all later ones are
excluded, and so is the accumulation for the final response.  The last
three conjuncts characterise `truncLen` as that first index. -/
theorem c1_stream_accumulated_text (deltas : List String) (cancel : Nat → Bool) :
    (callLlmStream cancel deltas "").2
        = (List.range (truncLen cancel deltas.length)).map
            (fun i => concatList (deltas.take (i + 1)))
      ∧ (callLlmStream cancel deltas "").1
        = concatList (deltas.take (truncLen cancel deltas.length))
      ∧ truncLen cancel deltas.length ≤ deltas.length
      ∧ ((List.range (truncLen cancel deltas.length)).all (fun i => !cancel i)) = true
      ∧ (truncLen cancel deltas.length = deltas.length
          ∨ cancel (truncLen cancel deltas.length) = true) := by
  have h := callLlmStream_spec deltas cancel ""
  have h2 := truncLen_first deltas.length cancel
  refine ⟨?_, ?_, h2.1, h2.2.1, h2.2.2⟩
  · rw [h.2]
    simp [String.empty_append]
  · rw [h.1]
    simp [String.empty_append]

/-- C2: whenever the cancellation flag is observed true at the checkpoint
after the chat result, the turn makes no TTS call, plays nothing and
appends no assistant message (the user message was committed before the
check); whenever it is observed true at the checkpoint after synthesis,
nothing is played. -/
theorem c2_cancel_checkpoint_no_side_effects
    (cfg : TurnCfg) (msgs : List Message) (env : TurnEnv) :
    (env.cancelAfterChat = true →
      (processTurn cfg msgs env).2.all
        (fun e => !(e.isTtsCall || e.isPlayCall || e.isAssistantAppend)) = true)
    ∧ (env.cancelAfterTts = true →
      (processTurn cfg msgs env).2.all (fun e => !e.isPlayCall) = true) := by
  constructor
  · intro h
    unfold processTurn
    repeat' split <;>
      (try simp_all [Effect.isTtsCall, Effect.isPlayCall, Effect.isAssistantAppend]) <;>
      aesop
  · intro h
    unfold processTurn
    repeat' split <;>
      (try simp_all [Effect.isPlayCall]) <;>
      aesop

/-- Witness for C2 at a concrete cancelled turn. -/
theorem c2_witness :
    ((processTurn sampleCfg [] cancelEnv).2.all
        (fun e => !(e.isTtsCall || e.isPlayCall || e.isAssistantAppend))) = true
    ∧ ((processTurn sampleCfg [] cancelEnv).2.all (fun e => !e.isPlayCall)) = true :=
  ⟨(c2_cancel_checkpoint_no_side_effects sampleCfg [] cancelEnv).1 rfl,
   (c2_cancel_checkpoint_no_side_effects sampleCfg [] cancelEnv).2 rfl⟩

/-- C3: while the pipeline is busy, both push-to-talk handlers are
no-ops: the state (session messages, busy flag, recorder) is unchanged
and no effect is produced — the recorder is neither started nor stopped
and no turn is launched. -/
theorem c3_busy_reject_noop (st : AppState) (h : st.busy = true) :
    pttStart st = (st, []) ∧ pttStop st = (st, []) := by
  simp [pttStart, pttStop, h]

/-- Witness for C3 at a concrete busy state. -/
theorem c3_witness :
    pttStart busyState = (busyState, []) ∧ pttStop busyState = (busyState, []) :=
  c3_busy_reject_noop busyState rfl

/-- C4: on every execution of the turn pipeline — normal completion,
early exit, cancellation or a collaborator exception at any stage — the
busy flag is false when the worker terminates. -/
theorem c4_busy_always_cleared (cfg : TurnCfg) (msgs : List Message) (env : TurnEnv) :
    ((processTurn cfg msgs env).1).2 = false := by
  unfold processTurn
  dsimp only
  repeat' split <;> (try rfl)

/-- C5 counterexample: on the empty message sequence the two persona
flows differ — the path flow inserts a system message, the live-edit flow
leaves the sequence empty. -/
theorem c5_counterexample :
    personaPathUpdate "p" [] ≠ personaTextUpdate "p" [] := by
  decide

/-- C5 amended: on any message sequence whose head is a system message —
the shape the session always has in this application — the two persona
flows have identical effect (replace the content of the head in place),
both are idempotent, and the number of system messages is unchanged.  On
other sequences they differ: the path flow inserts at index 0, the
live-edit flow does nothing. -/
theorem c5_amended_persona_flows (text : String) (m : Message)
    (rest : List Message) (h : m.role = "system") :
    personaPathUpdate text (m :: rest) = personaTextUpdate text (m :: rest)
    ∧ personaPathUpdate text (personaPathUpdate text (m :: rest))
        = personaPathUpdate text (m :: rest)
    ∧ personaTextUpdate text (personaTextUpdate text (m :: rest))
        = personaTextUpdate text (m :: rest)
    ∧ (personaPathUpdate text (m :: rest)).countP (fun x => x.role == "system")
        = (m :: rest).countP (fun x => x.role == "system") := by
  simp [personaPathUpdate, personaTextUpdate, h, List.countP_cons]

/-- Witness for C5 at a concrete one-element system sequence. -/
theorem c5_witness :
    personaPathUpdate "p" [⟨"system", "old"⟩]
        = personaTextUpdate "p" [⟨"system", "old"⟩]
    ∧ personaPathUpdate "p" (personaPathUpdate "p" [⟨"system", "old"⟩])
        = personaPathUpdate "p" [⟨"system", "old"⟩]
    ∧ personaTextUpdate "p" (personaTextUpdate "p" [⟨"system", "old"⟩])
        = personaTextUpdate "p" [⟨"system", "old"⟩]
    ∧ (personaPathUpdate "p" [⟨"system", "old"⟩]).countP (fun x => x.role == "system")
        = ([⟨"system", "old"⟩] : List Message).countP (fun x => x.role == "system") :=
  c5_amended_persona_flows "p" ⟨"system", "old"⟩ [] rfl

/-- C6 counterexample: on a payload missing the completion field, `chat`
raises a bare `KeyError`, which is not the uniform classified error kind,
contradicting the claim that the absence of the field surfaces as the
uniform `MalformedResponse` kind. -/
theorem c6_counterexample :
    chat (.ok (PyVal.dict [])) = .error (.keyError "choices")
    ∧ isUniformClientError (.keyError "choices") = false :=
  ⟨rfl, rfl⟩

/-- C6 amended: `chat` returns the first completion text trimmed on the
documented payload, a transport failure raises an error whose message
contains "LLM chat failed", and when the completion field is absent it
raises an unclassified `KeyError` rather than a uniform classified error
kind. -/
theorem c6_amended_chat_contract :
    chat (.ok helloPayload) = .ok "Hello!"
    ∧ (∀ cause : String,
        chat (.error cause) = .error (.runtimeError ("LLM chat failed: " ++ cause)))
    ∧ chat (.ok (PyVal.dict [])) = .error (.keyError "choices")
    ∧ isUniformClientError (.keyError "choices") = false :=
  ⟨rfl, fun _ => rfl, rfl, rfl⟩

/-- C7: on a turn whose snapshot succeeds and whose transcription is
empty after trimming, the pipeline ends the turn with exactly the status
"Transcription was empty" and the busy-clear enqueue: no message is
appended and neither the chat nor the TTS collaborator is called. -/
theorem c7_empty_transcript_early_exit
    (cfg : TurnCfg) (msgs : List Message) (env : TurnEnv) (v : Rat) (s : String)
    (hv : cfg.volumeAttr = some v) (ht : env.transcribeResult = .ok s)
    (hs : pyStrip s = "") :
    processTurn cfg msgs env
      = ((msgs, false), [.status "Transcription was empty", .enqueueBusy false]) := by
  unfold processTurn
  rw [hv, ht]
  simp [hs]

/-- Witness for C7 at a whitespace-only transcription. -/
theorem c7_witness :
    processTurn sampleCfg [] blankEnv
      = (([], false), [.status "Transcription was empty", .enqueueBusy false]) :=
  c7_empty_transcript_early_exit sampleCfg [] blankEnv 1 "  " rfl rfl (by decide)

/-- C8 (code bug evidence): a fully successful, never-cancelled turn
reaches the TTS call, but the handoff to playback never happens: app.py
passes the keyword `volume` while audio.py declares
`play_audio(data, device=None)`, so the call raises `TypeError`, the turn
ends in an error status, and no play effect occurs. -/
theorem c8_play_call_type_error :
    ((processTurn sampleCfg [] sampleEnv).2.all (fun e => !e.isPlayCall)) = true
    ∧ Effect.ttsCall "tts" "vibevoice" "Hello!" ∈ (processTurn sampleCfg [] sampleEnv).2
    ∧ Effect.status ("Error: " ++ pyErrMsg playKwargError)
        ∈ (processTurn sampleCfg [] sampleEnv).2
    ∧ ((processTurn sampleCfg [] sampleEnv).1).1
        = [⟨"user", "hi"⟩, ⟨"assistant", "Hello!"⟩] := by
  decide

/-- C9: loading a config document that sets only the LocalAI base URL
yields that base URL with every other field at its dataclass default, and
a missing or unparsable file yields the all-defaults configuration; in
both cases no exception is raised (the result is `.ok`). -/
theorem c9_config_defaults :
    (∀ u : String,
      loadConfig (some (onlyBaseUrlToml u))
        = .ok { defaultCfgApp with
                localai := { defaultCfgApp.localai with base_url := .str u } })
    ∧ loadConfig none = .ok defaultCfgApp :=
  ⟨fun _ => rfl, rfl⟩

/-- C10: while the recorder is recording, `stop()` returns a non-empty
byte string (at least the 44-byte WAV container header, even for zero
captured frames); consequently, on an idle app whose recorder is
recording, `ptt_stop` never reports "No audio captured" — that early exit
requires `stop()` to be called while not recording. -/
theorem c10_stop_nonempty_wav (r : RecState) (st : AppState)
    (hr : r.running = true) (hb : st.busy = false)
    (hs : st.recorder.running = true) :
    ((recorderStop r).2 ≠ [] ∧ 44 ≤ (recorderStop r).2.length)
    ∧ Effect.status "No audio captured" ∉ (pttStop st).2 := by
  constructor
  · simp [recorderStop, hr, wavEncode_ne_nil, wavEncode_length]
  · simp [pttStop, hb, recorderStop, hs, wavEncode_ne_nil]

/-- Witness for C10 at a recording state with zero captured frames. -/
theorem c10_witness :
    ((recorderStop recordingState.recorder).2 ≠ []
      ∧ 44 ≤ (recorderStop recordingState.recorder).2.length)
    ∧ Effect.status "No audio captured" ∉ (pttStop recordingState).2 :=
  c10_stop_nonempty_wav recordingState.recorder recordingState rfl rfl rfl
